import Mathlib

set_option maxHeartbeats 1000000
set_option maxRecDepth 100000

/-! Verification of the polling/notification control flow of
`src/lottery_notifier.py` (a two-phase lottery-result poller that
dispatches a DingTalk chat message and an email once per run).

The Python module is shallowly embedded below.  External effects are
modelled explicitly:

* each HTTP GET of an attempt is an `ApiOutcome` supplied by the
  environment (indexed by the 1-based attempt number);
* `time.sleep` calls become `Event.sleep` entries in an event trace;
* the wall clock at process start is a number of seconds since local
  midnight (Asia/Shanghai); the run never crosses into sub-second
  precision, so seconds suffice;
* `datetime.now(...).date()` taken at the start of each
  `get_lottery_result` call is passed in as the reference `Date`
  (`today` for the phase-1 call, `today2` for the phase-2 call);
* SMTP / webhook failures are supplied by the environment
  (`emailFails`, `chatFails`); the notification time strings that
  `datetime.now` produces inside the formatters are parameters.
-/

namespace LotteryNotifier

-- Module-level configuration constants (lottery_notifier.py lines 16-21).
def PHASE1_RETRIES : Nat := 5
def PHASE1_INTERVAL : Nat := 120
def PHASE2_RETRIES : Nat := 30
def PHASE2_INTERVAL : Nat := 10
def EMAIL_MAX_RETRIES : Nat := 5
def EMAIL_RETRY_DELAY : Nat := 3

/-- Calendar date (the value of `datetime.date()`). -/
structure Date where
  year : Nat
  month : Nat
  day : Nat
  deriving DecidableEq

/-- Naive local timestamp as produced by
`datetime.strptime(s, '%Y-%m-%d %H:%M:%S')`.  `pytz.localize` merely
attaches the Asia/Shanghai zone without changing the fields (the
default `is_dst=False` never raises), so the localized timestamp keeps
exactly these components. -/
structure DateTime where
  year : Nat
  month : Nat
  day : Nat
  hour : Nat
  minute : Nat
  second : Nat
  deriving DecidableEq

/-- The `.date()` component of a (localized) timestamp. -/
def DateTime.toDate (dt : DateTime) : Date :=
  ⟨dt.year, dt.month, dt.day⟩

def digitVal (c : Char) : Option Nat :=
  if c.isDigit then some (c.toNat - 48) else none

/-- One numeric field of the `strptime` format directives `%m`, `%d`,
`%H`, `%M`, `%S`.  CPython compiles each of these to an ordered regex
alternation that prefers a two-digit match and falls back to one digit;
since every field here is followed by a non-digit literal (or the end of
the string), the alternation is equivalent to: if two digits are
present, the two-digit value must be in range, otherwise the single
digit must be in range. -/
def parseField (lo hi : Nat) : List Char → Option (Nat × List Char)
  | c1 :: c2 :: rest =>
    match digitVal c1, digitVal c2 with
    | some d1, some d2 =>
      let v := 10 * d1 + d2
      if lo ≤ v ∧ v ≤ hi then some (v, rest) else none
    | some d1, none =>
      if lo ≤ d1 ∧ d1 ≤ hi then some (d1, c2 :: rest) else none
    | none, _ => none
  | [c1] =>
    match digitVal c1 with
    | some d1 => if lo ≤ d1 ∧ d1 ≤ hi then some (d1, []) else none
    | none => none
  | [] => none

/-- The `%Y` directive: exactly four digits. -/
def parse4 : List Char → Option (Nat × List Char)
  | c1 :: c2 :: c3 :: c4 :: rest =>
    match digitVal c1, digitVal c2, digitVal c3, digitVal c4 with
    | some a, some b, some c, some d => some (1000 * a + 100 * b + 10 * c + d, rest)
    | _, _, _, _ => none
  | _ => none

def expectChar (ch : Char) : List Char → Option (List Char)
  | c :: rest => if c = ch then some rest else none
  | [] => none

def isLeapYear (y : Nat) : Bool :=
  y % 4 == 0 && (y % 100 != 0 || y % 400 == 0)

def daysInMonth (y m : Nat) : Nat :=
  if m = 2 then (if isLeapYear y then 29 else 28)
  else if m = 4 ∨ m = 6 ∨ m = 9 ∨ m = 11 then 30
  else 31

/-- Model of `datetime.strptime(s, '%Y-%m-%d %H:%M:%S')` (line 59 of
the source): `none` exactly when CPython raises `ValueError` — wrong
literals, out-of-range fields, a day invalid for the month, year 0
(below `MINYEAR`), or unconverted trailing data. -/
def strptime (s : String) : Option DateTime := do
  let (y, r1) ← parse4 s.data
  let r2 ← expectChar '-' r1
  let (mo, r3) ← parseField 1 12 r2
  let r4 ← expectChar '-' r3
  let (d, r5) ← parseField 1 31 r4
  let r6 ← expectChar ' ' r5
  let (h, r7) ← parseField 0 23 r6
  let r8 ← expectChar ':' r7
  let (mi, r9) ← parseField 0 59 r8
  let r10 ← expectChar ':' r9
  let (se, r11) ← parseField 0 59 r10
  if r11 = [] ∧ 1 ≤ y ∧ d ≤ daysInMonth y mo then
    pure ⟨y, mo, d, h, mi, se⟩
  else
    none

/-- A JSON object in the position `data[0]`: the fields the script ever
reads, each `none` when the key is missing (`.get` returns `None`,
`[...]` raises `KeyError`). -/
structure RawRecord where
  openCode : Option String := none
  openTime : Option String := none
  zodiac : Option String := none
  wave : Option String := none
  expect : Option String := none
  deriving DecidableEq

/-- Behaviour of one HTTP GET to the lottery API, as observed by the
`try` block of `get_lottery_result` (lines 47-78). -/
inductive ApiOutcome where
  /-- `requests.get` raises (connection error, timeout). -/
  | netError
  /-- the GET returns a non-2xx status, so `raise_for_status` raises. -/
  | httpError
  /-- the body is not valid JSON, so `response.json()` raises. -/
  | badJson
  /-- the parsed JSON is not a non-empty list (empty list, dict,
  scalar, `null`, or a non-empty list whose first element is not an
  object — the latter makes `data[0].get` raise, also caught). -/
  | notNonEmptyList
  /-- a non-empty JSON list whose first element is the object `r`. -/
  | record (r : RawRecord)
  deriving DecidableEq

/-- The body of one loop iteration of `get_lottery_result` (lines
47-78): `some r` iff this attempt `return result`s.  Mirrors the
source order: the `data and isinstance(data, list) and
data[0].get('openCode')` guard, then `strptime` on
`result['openTime']` (whose `KeyError`/`ValueError` is caught by the
blanket `except`), then the phase-1 unconditional return, then the
phase-2 date check against the reference date captured at call start. -/
def attemptResult (phase : Nat) (today : Date) (o : ApiOutcome) : Option RawRecord :=
  match o with
  | .record r =>
    match r.openCode with
    | some code =>
      if code = "" then none
      else
        match r.openTime with
        | some t =>
          match strptime t with
          | some dt =>
            if phase = 1 then some r
            else if phase = 2 ∧ dt.toDate = today then some r
            else none
          | none => none
        | none => none
    | none => none
  | _ => none

/-- Whether `r` carries every field the formatters index with
brackets: `format_dingtalk_message` reads `result['openCode']`,
`result['zodiac']`, `result['wave']` (lines 95-97) and
`result['openTime']`, `result['expect']` (line 126), and
`format_email_content` the same five (lines 138-140, 231-233).  A
missing key raises `KeyError` there, and the call sites — line 255 in
`send_dingtalk_message` (before the `try` of line 276) and line 300 in
`send_email` (before its retry loop) — are outside any handler, so the
exception propagates through `main` uncaught: the process dies with a
traceback (exit 1), no webhook POST and no SMTP attempt happens.
Acceptance in `get_lottery_result` checks only `openCode` and
`openTime`, so an accepted record can still fail this. -/
def formatFieldsPresent (r : RawRecord) : Bool :=
  r.openCode.isSome && r.zodiac.isSome && r.wave.isSome
    && r.openTime.isSome && r.expect.isSome

/-- Observable step of a run. -/
inductive Event where
  /-- one HTTP GET to the lottery API (`requests.get`, line 49). -/
  | fetch (phase attempt : Nat)
  /-- a `time.sleep(seconds)` call. -/
  | sleep (seconds : Nat)
  /-- the chat message dispatch: the webhook POST of line 277 (reached
  only if formatting `r` did not raise). -/
  | chat (r : RawRecord)
  /-- the email dispatch: the `send_email(r)` call of line 357/377
  entering its send path (reached only if formatting `r` did not
  raise). -/
  | email (r : RawRecord)
  deriving DecidableEq

def isFetch : Event → Bool
  | .fetch _ _ => true
  | _ => false

def isChat : Event → Bool
  | .chat _ => true
  | _ => false

def isEmail : Event → Bool
  | .email _ => true
  | _ => false

/-- The retry loop `for attempt in range(1, max_retries + 1)` of
`get_lottery_result` (lines 46-83), with `remaining` the number of
attempts still allowed (including the current one).  Sleeps
`retry_interval` only when `attempt < max_retries`, i.e. when
`remaining` is not exhausted after this attempt. -/
def fetchGo (phase : Nat) (today : Date) (outcomes : Nat → ApiOutcome)
    (interval : Nat) : Nat → Nat → Option RawRecord × List Event
  | _, 0 => (none, [])
  | attempt, remaining + 1 =>
    match attemptResult phase today (outcomes attempt) with
    | some r => (some r, [Event.fetch phase attempt])
    | none =>
      if remaining = 0 then (none, [Event.fetch phase attempt])
      else
        let rest := fetchGo phase today outcomes interval (attempt + 1) remaining
        (rest.1, Event.fetch phase attempt :: Event.sleep interval :: rest.2)

def maxRetriesFor (phase : Nat) : Nat :=
  if phase = 1 then PHASE1_RETRIES else PHASE2_RETRIES

def intervalFor (phase : Nat) : Nat :=
  if phase = 1 then PHASE1_INTERVAL else PHASE2_INTERVAL

/-- `get_lottery_result(phase)` (lines 31-86): `today` is the
`.date()` of `datetime.now(beijing_tz)` captured at the start of the
call (line 34).  Returns the fetched record (or `None`) together with
the fetch/sleep trace. -/
def get_lottery_result (phase : Nat) (today : Date) (outcomes : Nat → ApiOutcome) :
    Option RawRecord × List Event :=
  fetchGo phase today outcomes (intervalFor phase) 1 (maxRetriesFor phase)

/-- The retry loop of `send_email` (lines 309-333): `fails i = true`
means SMTP attempt `i` raises.  Returns `(success, attempts made,
sleep durations)`. -/
def send_email_go (fails : Nat → Bool) : Nat → Nat → Bool × Nat × List Nat
  | _, 0 => (false, 0, [])
  | attempt, remaining + 1 =>
    if fails attempt then
      if remaining = 0 then (false, 1, [])
      else
        let rest := send_email_go fails (attempt + 1) remaining
        (rest.1, rest.2.1 + 1, EMAIL_RETRY_DELAY :: rest.2.2)
    else (true, 1, [])

/-- `send_email(result)`'s control behaviour (lines 285-341): the
message construction is pure, so only the retry loop is modelled.
Returns `False` after exhausting `EMAIL_MAX_RETRIES` attempts; never
raises (the blanket `except` swallows every attempt failure). -/
def send_email (fails : Nat → Bool) : Bool × Nat × List Nat :=
  send_email_go fails 1 EMAIL_MAX_RETRIES

/-- Environment of one run of `main`. -/
structure Env where
  /-- `datetime.now(beijing_tz)` at the start of `main` (line 346), as
  seconds since local midnight. -/
  startSec : Nat
  /-- reference date at the start of the phase-1 fetch call. -/
  today : Date
  /-- reference date at the start of the phase-2 fetch call. -/
  today2 : Date
  /-- API behaviour per phase-1 attempt number. -/
  outcomes1 : Nat → ApiOutcome
  /-- API behaviour per phase-2 attempt number. -/
  outcomes2 : Nat → ApiOutcome
  /-- whether the DingTalk POST raises / returns non-2xx. -/
  chatFails : Bool
  /-- whether SMTP attempt `i` raises. -/
  emailFails : Nat → Bool

/-- `phase2_start` (line 362): `current_time.replace(hour=21,
minute=31, second=31, microsecond=0)`, as seconds since local
midnight. -/
def phase2StartSec : Nat := 21 * 3600 + 31 * 60 + 31

/-- Total seconds slept in a trace. -/
def sleepSum (es : List Event) : Nat :=
  (es.map (fun e => match e with | .sleep s => s | _ => 0)).sum

/-- Result of one run of `main`. -/
structure RunResult where
  /-- ordered trace of fetches, sleeps and dispatches. -/
  events : List Event
  /-- process exit code (`exit(1)` on line 381, else 0). -/
  exitCode : Nat
  /-- absolute clock (seconds since local midnight) at which phase 2
  begins, when phase 1 was exhausted: the gap wait starts only after
  phase 1 ends (its sleeps have elapsed; request latency is modelled
  as 0, a lower bound) and lasts `phase2_start - current_time`
  seconds computed from the *stale* `current_time` of line 346. -/
  wake : Option Nat
  /-- return value of `send_email`, when a dispatch happened. -/
  emailReport : Option (Bool × Nat × List Nat)
  /-- return value of `send_dingtalk_message`, when a dispatch
  happened. -/
  chatReport : Option Bool

/-- `wait_seconds` (line 366): computed from the *stale*
`current_time` captured at line 346, before phase 1 ran. -/
def gapWait (env : Env) : Nat :=
  if env.startSec < phase2StartSec then phase2StartSec - env.startSec else 0

/-- The gap sleep of lines 365-368, performed only when the start time
(not the current clock) is before the window start. -/
def gapEvents (env : Env) : List Event :=
  if env.startSec < phase2StartSec then [Event.sleep (gapWait env)] else []

/-- `main()` (lines 343-381).  On an accepted record the run calls
`send_dingtalk_message` and then `send_email`; when the record lacks
one of the five formatter fields, `format_dingtalk_message` (line 255,
outside the `try` of line 276) raises an uncaught `KeyError` at lines
95-97/126, so neither the webhook POST nor any SMTP attempt happens
and the process dies with exit code 1.  The environment-variable
lookups (lines 251-252, 292-294) are configuration, an external
collaborator the spec scopes out; they are modelled as present. -/
def main (env : Env) : RunResult :=
  let f1 := get_lottery_result 1 env.today env.outcomes1
  match f1.1 with
  | some r =>
    if formatFieldsPresent r then
      { events := f1.2 ++ [Event.chat r, Event.email r]
        exitCode := 0
        wake := none
        emailReport := some (send_email env.emailFails)
        chatReport := some (!env.chatFails) }
    else
      { events := f1.2
        exitCode := 1
        wake := none
        emailReport := none
        chatReport := none }
  | none =>
    let f2 := get_lottery_result 2 env.today2 env.outcomes2
    match f2.1 with
    | some r =>
      if formatFieldsPresent r then
        { events := f1.2 ++ gapEvents env ++ f2.2 ++ [Event.chat r, Event.email r]
          exitCode := 0
          wake := some (env.startSec + sleepSum f1.2 + gapWait env)
          emailReport := some (send_email env.emailFails)
          chatReport := some (!env.chatFails) }
      else
        { events := f1.2 ++ gapEvents env ++ f2.2
          exitCode := 1
          wake := some (env.startSec + sleepSum f1.2 + gapWait env)
          emailReport := none
          chatReport := none }
    | none =>
      { events := f1.2 ++ gapEvents env ++ f2.2
        exitCode := 1
        wake := some (env.startSec + sleepSum f1.2 + gapWait env)
        emailReport := none
        chatReport := none }

/-- A draw record as consumed by the formatters, which index all five
fields with `result[...]` (so all must be present there); matches the
spec's DrawResult data model. -/
structure DrawResult where
  openCode : String
  zodiac : String
  wave : String
  openTime : String
  expect : String
  deriving DecidableEq

/-- Model of Python `s.split(',')`: cut at every comma, keeping empty
pieces; on `""` it yields `[""]`, so the result is never empty. -/
def splitCommaAux : List Char → List Char → List String
  | [], acc => [String.mk acc.reverse]
  | c :: rest, acc =>
    if c = ',' then String.mk acc.reverse :: splitCommaAux rest []
    else splitCommaAux rest (c :: acc)

def splitComma (s : String) : List String :=
  splitCommaAux s.data []

/-- Model of Python `s.strip()`: drop whitespace from both ends (the
color tags contain at most ASCII whitespace). -/
def isSpaceChar (c : Char) : Bool :=
  c = ' ' ∨ c = '\t' ∨ c = '\n' ∨ c = '\r'

def dropLeading : List Char → List Char
  | [] => []
  | c :: rest => if isSpaceChar c then dropLeading rest else c :: rest

def stripStr (s : String) : String :=
  String.mk ((dropLeading (dropLeading s.data).reverse).reverse)

/-- Model of Python `s.lower()` (ASCII range; the color tags are
ASCII). -/
def lowerChar (c : Char) : Char :=
  if 65 ≤ c.toNat ∧ c.toNat ≤ 90 then Char.ofNat (c.toNat + 32) else c

def lowerStr (s : String) : String :=
  String.mk (s.data.map lowerChar)

/-- `result['openCode'].split(',')` — `str.split` with an explicit
separator never returns an empty list. -/
def numbers (r : DrawResult) : List String := splitComma r.openCode

def zodiacs (r : DrawResult) : List String := splitComma r.zodiac

def waves (r : DrawResult) : List String := splitComma r.wave

/-- The `wave_mapping` dict lookup with default (line 110):
`wave_mapping.get(w, w)` for an already stripped, lowercased `w`. -/
def wave_mapping (w : String) : String :=
  if w = "red" then "红"
  else if w = "blue" then "蓝"
  else if w = "green" then "绿"
  else w

/-- `chinese_waves` (lines 107-110): `wave_mapping.get(w, w)` applied
to `wave.strip().lower()`. -/
def chinese_waves (r : DrawResult) : List String :=
  (waves r).map (fun w => wave_mapping (lowerStr (stripStr w)))

/-- `max(len(x) for x in l)` over a list that is never empty here
(Python `len` counts code points, as does `String.length`). -/
def maxLen (l : List String) : Nat :=
  (l.map String.length).foldl Nat.max 0

/-- `s.ljust(w)`: pad on the right with spaces up to width `w`. -/
def ljust (s : String) (w : Nat) : String :=
  s ++ String.mk (List.replicate (w - s.length) ' ')

def aligned_numbers (r : DrawResult) : List String :=
  (numbers r).map (fun n => ljust n (maxLen (numbers r) + 2))

def aligned_waves (r : DrawResult) : List String :=
  (chinese_waves r).map (fun w => ljust w (maxLen (chinese_waves r) + 2))

def aligned_zodiacs (r : DrawResult) : List String :=
  (zodiacs r).map (fun z => ljust z (maxLen (zodiacs r) + 2))

/-- The closed part of the DingTalk message (lines 123-126): the three
aligned lines, a blank line, then the draw-time/period line. -/
def dingtalkBody (r : DrawResult) : String :=
  String.join (aligned_numbers r) ++ "\n"
    ++ String.join (aligned_waves r) ++ "\n"
    ++ String.join (aligned_zodiacs r) ++ "\n\n"
    ++ "開獎時間：" ++ r.openTime ++ "期號：" ++ r.expect ++ "期\n"

/-- `format_dingtalk_message(result)` (lines 88-129), with the
notification time (`datetime.now(beijing_tz).strftime(...)`, captured
at dispatch) as a parameter. -/
def format_dingtalk_message (r : DrawResult) (notificationTime : String) : String :=
  dingtalkBody r ++ ("通知時間：" ++ notificationTime)

/-- The `wave_colors` dict lookup with default `'#CCCCCC'`
(lines 143-153). -/
def wave_colors (w : String) : String :=
  if w = "red" then "#FF0000"
  else if w = "blue" then "#0000FF"
  else if w = "green" then "#00FF00"
  else "#CCCCCC"

/-- One iteration of the `for num, wave, zodiac in zip(...)` loop body
(lines 151-184): the HTML fragment appended to `number_items`. -/
def emailItem (num wave zodiac : String) : String :=
  let color := wave_colors (lowerStr (stripStr wave))
  let fontSize := if num.length ≤ 2 then "24px" else "18px"
  "\n        <div style=\"\n            display: flex;\n            flex-direction: column;\n            align-items: center;\n            margin: 0 10px;\n        \">\n            <div style=\"\n                display: flex;\n                justify-content: center;\n                align-items: center;\n                width: 55px;\n                height: 55px;\n                border-radius: 50%;\n                background-color: "
    ++ color
    ++ ";\n                color: white;\n                font-weight: bold;\n                font-size: "
    ++ fontSize
    ++ ";\n                margin-bottom: 8px;\n            \">"
    ++ num
    ++ "</div>\n            <div style=\"\n                font-size: 16px;\n                text-align: center;\n                min-width: 55px;\n            \">"
    ++ zodiac
    ++ "</div>\n        </div>\n        "

/-- The cells of the email body: Python `zip(numbers, waves, zodiacs)`
stops at the shortest input, exactly like nested `List.zip`. -/
def emailCells (r : DrawResult) : List String :=
  ((numbers r).zip ((waves r).zip (zodiacs r))).map
    (fun p => emailItem p.1 p.2.1 p.2.2)

/-- `number_items` (lines 150-184): concatenation of the cell
fragments. -/
def number_items (r : DrawResult) : String :=
  String.join (emailCells r)

/-- Head of the body template (lines 187-226) up to the
`{number_items}` interpolation. -/
def emailHead : String :=
  "\n    <html>\n    <head>\n        <meta charset=\"utf-8\">\n        <style>\n            body \x7b\n                font-family: \x27Microsoft YaHei\x27, Arial, sans-serif;\n                line-height: 1.6;\n                color: #333;\n                max-width: 700px;\n                margin: 0 auto;\n                padding: 20px;\n            \x7d\n            .container \x7b\n                display: flex;\n                flex-direction: column;\n                align-items: center;\n            \x7d\n            .numbers-container \x7b\n                display: flex;\n                justify-content: center;\n                flex-wrap: wrap;\n                margin: 25px 0;\n            \x7d\n            .info-line \x7b\n                width: 100%;\n                margin: 12px 0;\n                font-size: 18px;\n                text-align: center;\n            \x7d\n            .label \x7b\n                font-weight: bold;\n                margin-right: 5px;\n            \x7d\n        </style>\n    </head>\n    <body>\n        <div class=\"container\">\n            <div class=\"numbers-container\">\n                "

/-- Template between `{number_items}` and `{result['openTime']}`
(lines 226-231). -/
def emailMid1 : String :=
  "\n            </div>\n            \n            <div class=\"info-line\">\n                <span class=\"label\">開獎時間：</span>\n                <span>"

/-- Template between `{result['openTime']}` and `{result['expect']}`
(lines 231-233). -/
def emailMid2 : String :=
  "</span>\n                <span class=\"label\">期號：</span>\n                <span>"

/-- Template between `{result['expect']}` and `{notification_time}`
(lines 233-238). -/
def emailMid3 : String :=
  "期</span>\n            </div>\n            \n            <div class=\"info-line\">\n                <span class=\"label\">通知時間：</span>\n                <span>"

/-- Tail of the body template (lines 238-243). -/
def emailFoot : String :=
  "</span>\n            </div>\n        </div>\n    </body>\n    </html>\n    "

/-- `format_email_content(result)` (lines 131-245), with the
notification time as a parameter. -/
def format_email_content (r : DrawResult) (notificationTime : String) : String :=
  emailHead ++ number_items r ++ emailMid1 ++ r.openTime ++ emailMid2
    ++ r.expect ++ emailMid3 ++ notificationTime ++ emailFoot

/-- API behaviours on which every single attempt comes up empty: an
exception before validation, a shape that fails the
`data and isinstance(data, list)` guard, or a first record whose
`openCode` is missing or falsy. -/
def badOutcome : ApiOutcome → Bool
  | .record r =>
    match r.openCode with
    | none => true
    | some c => c == ""
  | _ => true

/-- Modelled from the spec: `s.rjust(w)` — the right-aligned
counterpart of `ljust`, used only to state what a "right-aligned
numeric column" line would look like.  The source itself uses
`ljust`. -/
def rjust (s : String) (w : Nat) : String :=
  String.mk (List.replicate (w - s.length) ' ') ++ s

/-- Modelled from the spec: the first message line as it would be
rendered with right-aligned columns of the same width the source
uses. -/
def rjust_numbers_line (r : DrawResult) : String :=
  String.join ((numbers r).map (fun n => rjust n (maxLen (numbers r) + 2)))

/-- Reference date 2024-05-01 used by the concrete scenarios. -/
def dateRef : Date := ⟨2024, 5, 1⟩

/-- The end-to-end scenario record of spec section 8. -/
def rec9 : DrawResult :=
  { openCode := "1,2,3"
    zodiac := "Rat,Ox,Tiger"
    wave := "red,blue,green"
    openTime := "2024-05-01 21:30:00"
    expect := "123" }

/-- A concrete notification time for the closed scenario checks. -/
def t9 : String := "2024-05-01 21:35:00"

/-- A record whose three comma-separated fields have unequal
cardinalities (3 numbers, 2 waves, 1 zodiac). -/
def recUneven : DrawResult :=
  { openCode := "1,2,3"
    zodiac := "Rat"
    wave := "red,blue"
    openTime := "2024-05-01 21:30:00"
    expect := "123" }

/-- A fetched record with a truthy `openCode` but an `openTime` that
`strptime` rejects (slashes instead of dashes). -/
def recBadTime : RawRecord :=
  { openCode := some "1,2,3"
    openTime := some "2024/05/01 21:30:00" }

/-- A fetched record with a truthy `openCode` and a well-formed
`openTime` dated 2023-01-01 — not `dateRef`'s day. -/
def recEarly : RawRecord :=
  { openCode := some "1,2,3"
    openTime := some "2023-01-01 00:00:00"
    zodiac := some "Rat,Ox,Tiger"
    wave := some "red,blue,green"
    expect := some "123" }

/-- A fetched record dated `dateRef`'s day. -/
def recToday : RawRecord :=
  { openCode := some "1,2,3"
    openTime := some "2024-05-01 21:30:00"
    zodiac := some "Rat,Ox,Tiger"
    wave := some "red,blue,green"
    expect := some "123" }

/-- A record that phase 1 accepts (truthy `openCode`, parseable
`openTime`) but that lacks the `zodiac` field read at line 96 of
`format_dingtalk_message`. -/
def recNoZodiac : RawRecord :=
  { openCode := some "1,2,3"
    openTime := some "2024-05-01 21:30:00"
    wave := some "red,blue,green"
    expect := some "123" }

/-- Run environment whose phase-1 attempts all serve `recNoZodiac`;
process start 21:10:00. -/
def envNoZodiac : Env :=
  { startSec := 76200
    today := dateRef
    today2 := dateRef
    outcomes1 := fun _ => ApiOutcome.record recNoZodiac
    outcomes2 := fun _ => ApiOutcome.netError
    chatFails := false
    emailFails := fun _ => false }

/-- Run environment in which every attempt of both phases yields a
non-empty list whose first record has a truthy `openCode` but a
malformed `openTime`; process start 21:10:00. -/
def envBadTime : Env :=
  { startSec := 76200
    today := dateRef
    today2 := dateRef
    outcomes1 := fun _ => ApiOutcome.record recBadTime
    outcomes2 := fun _ => ApiOutcome.record recBadTime
    chatFails := false
    emailFails := fun _ => false }

/-- Run environment in which every fetch attempt hits a network error;
process start 21:10:00 (4791 seconds before the 21:31:31 window
start). -/
def envWake : Env :=
  { startSec := 76200
    today := dateRef
    today2 := dateRef
    outcomes1 := fun _ => ApiOutcome.netError
    outcomes2 := fun _ => ApiOutcome.netError
    chatFails := false
    emailFails := fun _ => false }

/-- Run environment whose phase-1 attempts all serve `recEarly` (a
valid record not dated today). -/
def envEarly : Env :=
  { startSec := 76200
    today := dateRef
    today2 := dateRef
    outcomes1 := fun _ => ApiOutcome.record recEarly
    outcomes2 := fun _ => ApiOutcome.netError
    chatFails := false
    emailFails := fun _ => false }

/-- Run environment where phase 1 finds today's record at once but
every SMTP attempt (and the chat POST) fails. -/
def envEmailFail : Env :=
  { startSec := 76200
    today := dateRef
    today2 := dateRef
    outcomes1 := fun _ => ApiOutcome.record recToday
    outcomes2 := fun _ => ApiOutcome.netError
    chatFails := true
    emailFails := fun _ => true }

/-- Helper: every event of a fetch trace is a fetch or the interval
sleep. -/
lemma fetchGo_no_dispatch (ph : Nat) (d : Date) (oc : Nat → ApiOutcome) (itv : Nat) :
    ∀ (rem a : Nat) (e : Event), e ∈ (fetchGo ph d oc itv a rem).2 →
      isFetch e = true ∨ e = Event.sleep itv := by
  intro rem
  induction rem with
  | zero => intro a e he; simp [fetchGo] at he
  | succ n ih =>
    intro a e he
    simp only [fetchGo] at he
    cases h : attemptResult ph d (oc a) with
    | some r =>
      rw [h] at he
      simp at he
      subst he
      exact Or.inl rfl
    | none =>
      rw [h] at he
      by_cases hn : n = 0
      · simp [hn] at he
        subst he
        exact Or.inl rfl
      · simp only [hn, if_false, List.mem_cons] at he
        rcases he with he | he | he
        · subst he; exact Or.inl rfl
        · subst he; exact Or.inr rfl
        · exact ih (a + 1) e he

/-- Helper: a fetch trace consists of fetch and sleep events only. -/
lemma fetchGo_dispatchFree (ph : Nat) (d : Date) (oc : Nat → ApiOutcome) (itv : Nat)
    (rem a : Nat) :
    ((fetchGo ph d oc itv a rem).2.all (fun e => !(isChat e || isEmail e))) = true := by
  rw [List.all_eq_true]
  intro e he
  rcases fetchGo_no_dispatch ph d oc itv rem a e he with h | h
  · cases e <;> simp_all [isFetch, isChat, isEmail]
  · subst h; simp [isChat, isEmail]

/-- Helper: a fetch trace has at most `rem` fetch events. -/
lemma fetchGo_countFetch (ph : Nat) (d : Date) (oc : Nat → ApiOutcome) (itv : Nat) :
    ∀ (rem a : Nat), ((fetchGo ph d oc itv a rem).2.countP isFetch) ≤ rem := by
  intro rem
  induction rem with
  | zero => intro a; simp [fetchGo]
  | succ n ih =>
    intro a
    simp only [fetchGo]
    cases h : attemptResult ph d (oc a) with
    | some r => simp [isFetch, List.countP_cons]
    | none =>
      by_cases hn : n = 0
      · simp [hn, isFetch, List.countP_cons]
      · simp only [hn, if_false]
        have := ih (a + 1)
        simp [List.countP_cons, isFetch]
        omega

/-- Helper: a successful fetch comes from the attempt body succeeding
at some attempt number inside the loop range. -/
lemma fetchGo_some (ph : Nat) (d : Date) (oc : Nat → ApiOutcome) (itv : Nat) :
    ∀ (rem a : Nat) (r : RawRecord), (fetchGo ph d oc itv a rem).1 = some r →
      ∃ i, a ≤ i ∧ i < a + rem ∧ attemptResult ph d (oc i) = some r := by
  intro rem
  induction rem with
  | zero => intro a r h; simp [fetchGo] at h
  | succ n ih =>
    intro a r h
    simp only [fetchGo] at h
    cases hat : attemptResult ph d (oc a) with
    | some r' =>
      rw [hat] at h
      simp at h
      exact ⟨a, Nat.le_refl a, by omega, by rw [hat, h]⟩
    | none =>
      rw [hat] at h
      by_cases hn : n = 0
      · simp [hn] at h
      · simp only [hn, if_false] at h
        obtain ⟨i, hi1, hi2, hi3⟩ := ih (a + 1) r h
        exact ⟨i, by omega, by omega, hi3⟩

/-- Helper: the attempt body succeeds only on a non-empty-list response
whose first record it returns, with a truthy `openCode`. -/
lemma attemptResult_record (ph : Nat) (d : Date) (o : ApiOutcome) (r : RawRecord)
    (h : attemptResult ph d o = some r) :
    o = ApiOutcome.record r ∧ ∃ c, r.openCode = some c ∧ c ≠ "" := by
  cases o with
  | record r' =>
    cases hoc : r'.openCode with
    | none => simp [attemptResult, hoc] at h
    | some code =>
      by_cases hc : code = ""
      · simp [attemptResult, hoc, hc] at h
      · cases hot : r'.openTime with
        | none => simp [attemptResult, hoc, hc, hot] at h
        | some t =>
          cases hst : strptime t with
          | none => simp [attemptResult, hoc, hc, hot, hst] at h
          | some dt =>
            have hrr : r' = r := by
              by_cases hp1 : ph = 1
              · simpa [attemptResult, hoc, hc, hot, hst, hp1] using h
              · by_cases hp2 : ph = 2 ∧ dt.toDate = d
                · simpa [attemptResult, hoc, hc, hot, hst, hp1, hp2] using h
                · simp [attemptResult, hoc, hc, hot, hst, hp1, hp2] at h
            subst hrr
            exact ⟨rfl, code, hoc, hc⟩
  | netError => simp [attemptResult] at h
  | httpError => simp [attemptResult] at h
  | badJson => simp [attemptResult] at h
  | notNonEmptyList => simp [attemptResult] at h

/-- Helper: dispatch-free traces contain no chat or email events. -/
lemma dispatchFree_counts (es : List Event)
    (h : (es.all (fun e => !(isChat e || isEmail e))) = true) :
    es.countP isChat = 0 ∧ es.countP isEmail = 0
      ∧ ∀ r : RawRecord, Event.chat r ∉ es := by
  refine ⟨?_, ?_, ?_⟩
  · rw [List.countP_eq_zero]
    intro e he
    have := List.all_eq_true.mp h e he
    cases e <;> simp_all [isChat, isEmail]
  · rw [List.countP_eq_zero]
    intro e he
    have := List.all_eq_true.mp h e he
    cases e <;> simp_all [isChat, isEmail]
  · intro r hr
    have := List.all_eq_true.mp h _ hr
    simp [isChat] at this

/-- Helper: shape of a run whose phase 1 finds a fully-fielded
result. -/
lemma main_eq_dispatch1 (env : Env) (r : RawRecord)
    (hf1 : (get_lottery_result 1 env.today env.outcomes1).1 = some r)
    (hfmt : formatFieldsPresent r = true) :
    main env =
      { events := (get_lottery_result 1 env.today env.outcomes1).2
          ++ [Event.chat r, Event.email r]
        exitCode := 0
        wake := none
        emailReport := some (send_email env.emailFails)
        chatReport := some (!env.chatFails) } := by
  simp only [main, hf1, hfmt, if_true]

/-- Helper: shape of a run whose phase 1 accepts a record missing a
formatter field — the formatter's `KeyError` kills the run before any
notification. -/
lemma main_eq_crash1 (env : Env) (r : RawRecord)
    (hf1 : (get_lottery_result 1 env.today env.outcomes1).1 = some r)
    (hfmt : formatFieldsPresent r = false) :
    main env =
      { events := (get_lottery_result 1 env.today env.outcomes1).2
        exitCode := 1
        wake := none
        emailReport := none
        chatReport := none } := by
  simp only [main, hf1, hfmt, Bool.false_eq_true, if_false]

/-- Helper: shape of a run whose phase 1 is exhausted and phase 2 finds
a fully-fielded result. -/
lemma main_eq_dispatch2 (env : Env) (r : RawRecord)
    (hf1 : (get_lottery_result 1 env.today env.outcomes1).1 = none)
    (hf2 : (get_lottery_result 2 env.today2 env.outcomes2).1 = some r)
    (hfmt : formatFieldsPresent r = true) :
    main env =
      { events := (get_lottery_result 1 env.today env.outcomes1).2
          ++ gapEvents env ++ (get_lottery_result 2 env.today2 env.outcomes2).2
          ++ [Event.chat r, Event.email r]
        exitCode := 0
        wake := some (env.startSec
          + sleepSum (get_lottery_result 1 env.today env.outcomes1).2 + gapWait env)
        emailReport := some (send_email env.emailFails)
        chatReport := some (!env.chatFails) } := by
  simp only [main, hf1, hf2, hfmt, if_true]

/-- Helper: shape of a run whose phase 2 accepts a record missing a
formatter field. -/
lemma main_eq_crash2 (env : Env) (r : RawRecord)
    (hf1 : (get_lottery_result 1 env.today env.outcomes1).1 = none)
    (hf2 : (get_lottery_result 2 env.today2 env.outcomes2).1 = some r)
    (hfmt : formatFieldsPresent r = false) :
    main env =
      { events := (get_lottery_result 1 env.today env.outcomes1).2
          ++ gapEvents env ++ (get_lottery_result 2 env.today2 env.outcomes2).2
        exitCode := 1
        wake := some (env.startSec
          + sleepSum (get_lottery_result 1 env.today env.outcomes1).2 + gapWait env)
        emailReport := none
        chatReport := none } := by
  simp only [main, hf1, hf2, hfmt, Bool.false_eq_true, if_false]

/-- Helper: shape of a run in which both phases are exhausted. -/
lemma main_eq_failed (env : Env)
    (hf1 : (get_lottery_result 1 env.today env.outcomes1).1 = none)
    (hf2 : (get_lottery_result 2 env.today2 env.outcomes2).1 = none) :
    main env =
      { events := (get_lottery_result 1 env.today env.outcomes1).2
          ++ gapEvents env ++ (get_lottery_result 2 env.today2 env.outcomes2).2
        exitCode := 1
        wake := some (env.startSec
          + sleepSum (get_lottery_result 1 env.today env.outcomes1).2 + gapWait env)
        emailReport := none
        chatReport := none } := by
  simp only [main, hf1, hf2]

/-- Helper: `get_lottery_result` unfolded to the loop. -/
lemma get_lottery_result_def (ph : Nat) (d : Date) (oc : Nat → ApiOutcome) :
    get_lottery_result ph d oc
      = fetchGo ph d oc (intervalFor ph) 1 (maxRetriesFor ph) := rfl

/-- Helper: a phase trace is dispatch-free. -/
lemma fetch_dispatchFree (ph : Nat) (d : Date) (oc : Nat → ApiOutcome) :
    ((get_lottery_result ph d oc).2.all (fun e => !(isChat e || isEmail e))) = true := by
  rw [get_lottery_result_def]
  exact fetchGo_dispatchFree ph d oc (intervalFor ph) (maxRetriesFor ph) 1

/-- Helper: a phase performs at most its attempt budget of fetches. -/
lemma fetch_countFetch (ph : Nat) (d : Date) (oc : Nat → ApiOutcome) :
    (get_lottery_result ph d oc).2.countP isFetch ≤ maxRetriesFor ph := by
  rw [get_lottery_result_def]
  exact fetchGo_countFetch ph d oc (intervalFor ph) (maxRetriesFor ph) 1

/-- Helper: a successful phase comes from a successful attempt body in
range. -/
lemma fetch_some (ph : Nat) (d : Date) (oc : Nat → ApiOutcome) (r : RawRecord)
    (h : (get_lottery_result ph d oc).1 = some r) :
    ∃ i, 1 ≤ i ∧ i ≤ maxRetriesFor ph ∧ attemptResult ph d (oc i) = some r := by
  rw [get_lottery_result_def] at h
  obtain ⟨i, h1, h2, h3⟩ :=
    fetchGo_some ph d oc (intervalFor ph) (maxRetriesFor ph) 1 r h
  exact ⟨i, h1, by omega, h3⟩

/-- Helper: counting facts for the gap sleep. -/
lemma gap_counts (env : Env) :
    (gapEvents env).countP isFetch = 0 ∧ (gapEvents env).countP isChat = 0
      ∧ (gapEvents env).countP isEmail = 0
      ∧ ((gapEvents env).all (fun e => !(isChat e || isEmail e))) = true := by
  unfold gapEvents
  split <;> simp [isFetch, isChat, isEmail]

/-- C1: within one run of `main` there are at most
`PHASE1_RETRIES + PHASE2_RETRIES = 35` fetch attempts, at most one chat
dispatch and at most one email dispatch, every fetch precedes every
dispatch (so the controller never re-polls once a fetch has returned a
result), and no notification is duplicated; moreover a phase-1 success
caps the fetches at the phase-1 budget. -/
theorem run_dispatch_bounds (env : Env) :
    ((main env).events.countP isFetch ≤ PHASE1_RETRIES + PHASE2_RETRIES)
    ∧ ((main env).events.countP isChat ≤ 1)
    ∧ ((main env).events.countP isEmail ≤ 1)
    ∧ (∃ es1 es2, (main env).events = es1 ++ es2
        ∧ (es1.all (fun e => !(isChat e || isEmail e))) = true
        ∧ (es2.all (fun e => !(isFetch e))) = true)
    ∧ (∀ r, (get_lottery_result 1 env.today env.outcomes1).1 = some r →
        (main env).events.countP isFetch ≤ PHASE1_RETRIES) := by
  have h1d := fetch_dispatchFree 1 env.today env.outcomes1
  have h2d := fetch_dispatchFree 2 env.today2 env.outcomes2
  have h1c := fetch_countFetch 1 env.today env.outcomes1
  have h2c := fetch_countFetch 2 env.today2 env.outcomes2
  have hm1 : maxRetriesFor 1 = PHASE1_RETRIES := rfl
  have hm2 : maxRetriesFor 2 = PHASE2_RETRIES := rfl
  rw [hm1] at h1c
  rw [hm2] at h2c
  obtain ⟨hg1, hg2, hg3, hg4⟩ := gap_counts env
  obtain ⟨h1z, h1z', -⟩ := dispatchFree_counts _ h1d
  obtain ⟨h2z, h2z', -⟩ := dispatchFree_counts _ h2d
  cases hf1 : (get_lottery_result 1 env.today env.outcomes1).1 with
  | some r =>
    cases hfmt : formatFieldsPresent r with
    | true =>
      rw [main_eq_dispatch1 env r hf1 hfmt]
      refine ⟨?_, ?_, ?_, ?_, ?_⟩
      · simp only [List.countP_append]
        simp [List.countP_cons, isFetch, PHASE1_RETRIES, PHASE2_RETRIES]
        simp [PHASE1_RETRIES] at h1c
        omega
      · simp only [List.countP_append]
        simp [List.countP_cons, isChat, h1z]
      · simp only [List.countP_append]
        simp [List.countP_cons, isEmail, h1z']
      · exact ⟨(get_lottery_result 1 env.today env.outcomes1).2,
          [Event.chat r, Event.email r], rfl, h1d, by simp [isFetch]⟩
      · intro r' _
        simp only [List.countP_append]
        simp [List.countP_cons, isFetch]
        simpa [PHASE1_RETRIES] using h1c
    | false =>
      rw [main_eq_crash1 env r hf1 hfmt]
      refine ⟨?_, ?_, ?_, ?_, ?_⟩
      · exact Nat.le_trans h1c (by decide)
      · simp [h1z]
      · simp [h1z']
      · exact ⟨(get_lottery_result 1 env.today env.outcomes1).2, [],
          (List.append_nil _).symm, h1d, rfl⟩
      · intro r' _
        exact h1c
  | none =>
    cases hf2 : (get_lottery_result 2 env.today2 env.outcomes2).1 with
    | some r =>
      cases hfmt : formatFieldsPresent r with
      | true =>
        rw [main_eq_dispatch2 env r hf1 hf2 hfmt]
        refine ⟨?_, ?_, ?_, ?_, ?_⟩
        · simp only [List.countP_append]
          simp [List.countP_cons, isFetch, hg1, PHASE1_RETRIES, PHASE2_RETRIES]
          simp [PHASE1_RETRIES] at h1c
          simp [PHASE2_RETRIES] at h2c
          omega
        · simp only [List.countP_append]
          simp [List.countP_cons, isChat, h1z, h2z, hg2]
        · simp only [List.countP_append]
          simp [List.countP_cons, isEmail, h1z', h2z', hg3]
        · refine ⟨(get_lottery_result 1 env.today env.outcomes1).2
            ++ gapEvents env ++ (get_lottery_result 2 env.today2 env.outcomes2).2,
            [Event.chat r, Event.email r], by simp, ?_, by simp [isFetch]⟩
          simp only [List.all_append, Bool.and_eq_true]
          exact ⟨⟨h1d, hg4⟩, h2d⟩
        · intro r' hr'
          exact absurd hr' (by simp)
      | false =>
        rw [main_eq_crash2 env r hf1 hf2 hfmt]
        refine ⟨?_, ?_, ?_, ?_, ?_⟩
        · simp only [List.countP_append]
          simp [PHASE1_RETRIES, PHASE2_RETRIES, hg1]
          simp [PHASE1_RETRIES] at h1c
          simp [PHASE2_RETRIES] at h2c
          omega
        · simp only [List.countP_append]
          simp [h1z, h2z, hg2]
        · simp only [List.countP_append]
          simp [h1z', h2z', hg3]
        · refine ⟨(get_lottery_result 1 env.today env.outcomes1).2
            ++ gapEvents env ++ (get_lottery_result 2 env.today2 env.outcomes2).2,
            [], by simp, ?_, by simp⟩
          simp only [List.all_append, Bool.and_eq_true]
          exact ⟨⟨h1d, hg4⟩, h2d⟩
        · intro r' hr'
          exact absurd hr' (by simp)
    | none =>
      rw [main_eq_failed env hf1 hf2]
      refine ⟨?_, ?_, ?_, ?_, ?_⟩
      · simp only [List.countP_append]
        simp [PHASE1_RETRIES, PHASE2_RETRIES, hg1]
        simp [PHASE1_RETRIES] at h1c
        simp [PHASE2_RETRIES] at h2c
        omega
      · simp only [List.countP_append]
        simp [h1z, h2z, hg2]
      · simp only [List.countP_append]
        simp [h1z', h2z', hg3]
      · refine ⟨(get_lottery_result 1 env.today env.outcomes1).2
          ++ gapEvents env ++ (get_lottery_result 2 env.today2 env.outcomes2).2,
          [], by simp, ?_, by simp⟩
        simp only [List.all_append, Bool.and_eq_true]
        exact ⟨⟨h1d, hg4⟩, h2d⟩
      · intro r' hr'
        exact absurd hr' (by simp)

/-- C1 witness: the bounds instantiated on a run whose phase 1 finds a
record on the first attempt. -/
theorem run_dispatch_bounds_witness :
    (main envEarly).events.countP isFetch ≤ PHASE1_RETRIES :=
  (run_dispatch_bounds envEarly).2.2.2.2 recEarly (by decide)

/-- Helper: no chat event occurs in the gap sleep. -/
lemma gap_no_chat (env : Env) (r : RawRecord) : Event.chat r ∉ gapEvents env := by
  unfold gapEvents
  split <;> simp

/-- C5 counterexample: phase 1 accepts a record (truthy `openCode`,
today's `openTime`) that lacks the `zodiac` field; the run exits 1
with no chat and no email dispatch although the polling phases were
*not* exhausted — the formatter `KeyError` is a second fatal
condition, refuting "non-zero iff both phases exhausted / exhaustion
the sole fatal condition". -/
theorem exit_nonzero_without_exhaustion :
    (get_lottery_result 1 dateRef envNoZodiac.outcomes1).1 = some recNoZodiac
    ∧ (main envNoZodiac).exitCode = 1
    ∧ (main envNoZodiac).events.countP isChat = 0
    ∧ (main envNoZodiac).events.countP isEmail = 0 := by
  decide

/-- C5 amended: the exit code is 0 iff a dispatch occurred (in
particular it stays 0 when the chat POST and all email attempts fail —
it is independent of `chatFails`/`emailFails`), and it is non-zero iff
either both polling phases were exhausted without a qualifying result,
or the accepted record lacks one of the bracket-indexed formatter
fields, in which case the uncaught `KeyError` kills the run before any
notification. -/
theorem exit_code_spec (env : Env) (b : Bool) (f : Nat → Bool) :
    ((main env).exitCode = 0 ↔ ∃ r, Event.chat r ∈ (main env).events)
    ∧ ((main env).exitCode ≠ 0 ↔
        (((get_lottery_result 1 env.today env.outcomes1).1 = none
            ∧ (get_lottery_result 2 env.today2 env.outcomes2).1 = none)
          ∨ (∃ r, ((get_lottery_result 1 env.today env.outcomes1).1 = some r
                ∨ ((get_lottery_result 1 env.today env.outcomes1).1 = none
                  ∧ (get_lottery_result 2 env.today2 env.outcomes2).1 = some r))
              ∧ formatFieldsPresent r = false)))
    ∧ (main { env with chatFails := b, emailFails := f }).exitCode
        = (main env).exitCode := by
  have hno1 := (dispatchFree_counts _ (fetch_dispatchFree 1 env.today env.outcomes1)).2.2
  have hno2 := (dispatchFree_counts _ (fetch_dispatchFree 2 env.today2 env.outcomes2)).2.2
  cases hf1 : (get_lottery_result 1 env.today env.outcomes1).1 with
  | some r =>
    cases hfmt : formatFieldsPresent r with
    | true =>
      rw [main_eq_dispatch1 env r hf1 hfmt,
        main_eq_dispatch1 { env with chatFails := b, emailFails := f } r hf1 hfmt]
      refine ⟨?_, ?_, rfl⟩
      · constructor
        · intro _
          exact ⟨r, by simp⟩
        · intro _
          rfl
      · simp [hfmt]
    | false =>
      rw [main_eq_crash1 env r hf1 hfmt,
        main_eq_crash1 { env with chatFails := b, emailFails := f } r hf1 hfmt]
      refine ⟨?_, ?_, rfl⟩
      · constructor
        · intro h
          exact absurd h (by simp)
        · rintro ⟨r', hr'⟩
          exact ((dispatchFree_counts _ (fetch_dispatchFree 1 env.today env.outcomes1)).2.2 r' hr').elim
      · constructor
        · intro _
          exact Or.inr ⟨r, Or.inl rfl, hfmt⟩
        · intro _
          simp
  | none =>
    cases hf2 : (get_lottery_result 2 env.today2 env.outcomes2).1 with
    | some r =>
      cases hfmt : formatFieldsPresent r with
      | true =>
        rw [main_eq_dispatch2 env r hf1 hf2 hfmt,
          main_eq_dispatch2 { env with chatFails := b, emailFails := f } r hf1 hf2 hfmt]
        refine ⟨?_, ?_, rfl⟩
        · constructor
          · intro _
            exact ⟨r, by simp⟩
          · intro _
            rfl
        · simp [hfmt]
      | false =>
        rw [main_eq_crash2 env r hf1 hf2 hfmt,
          main_eq_crash2 { env with chatFails := b, emailFails := f } r hf1 hf2 hfmt]
        refine ⟨?_, ?_, rfl⟩
        · constructor
          · intro h
            exact absurd h (by simp)
          · rintro ⟨r', hr'⟩
            simp only [List.mem_append] at hr'
            rcases hr' with (h | h) | h
            · exact (hno1 r' h).elim
            · exact (gap_no_chat env r' h).elim
            · exact (hno2 r' h).elim
        · constructor
          · intro _
            exact Or.inr ⟨r, Or.inr ⟨rfl, rfl⟩, hfmt⟩
          · intro _
            simp
    | none =>
      rw [main_eq_failed env hf1 hf2,
        main_eq_failed { env with chatFails := b, emailFails := f } hf1 hf2]
      refine ⟨?_, ?_, rfl⟩
      · constructor
        · intro h
          exact absurd h (by simp)
        · rintro ⟨r', hr'⟩
          simp only [List.mem_append] at hr'
          rcases hr' with (h | h) | h
          · exact (hno1 r' h).elim
          · exact (gap_no_chat env r' h).elim
          · exact (hno2 r' h).elim
      · constructor
        · intro _
          exact Or.inl ⟨rfl, rfl⟩
        · intro _
          simp

/-- Helper: the phase-1 body accepts any record with a truthy
`openCode` and a parseable `openTime`, whatever its date. -/
lemma attempt_phase1_accepts (d : Date) (r : RawRecord) (code t : String) (dt : DateTime)
    (h2 : r.openCode = some code) (h3 : code ≠ "") (h4 : r.openTime = some t)
    (h5 : strptime t = some dt) :
    attemptResult 1 d (ApiOutcome.record r) = some r := by
  simp [attemptResult, h2, h3, h4, h5]

/-- Helper: a success of the attempt body on attempt 1 makes the whole
fetch call return it. -/
lemma fetch_first_attempt (ph : Nat) (d : Date) (oc : Nat → ApiOutcome) (r : RawRecord)
    (h : attemptResult ph d (oc 1) = some r) :
    (get_lottery_result ph d oc).1 = some r := by
  rw [get_lottery_result_def]
  obtain ⟨n, hn⟩ : ∃ n, maxRetriesFor ph = n + 1 := by
    unfold maxRetriesFor PHASE1_RETRIES PHASE2_RETRIES
    split
    · exact ⟨4, rfl⟩
    · exact ⟨29, rfl⟩
  rw [hn]
  simp only [fetchGo]
  rw [h]

/-- C2 counterexample: every attempt of both phases serves a non-empty
JSON list whose first record has the truthy `openCode` "1,2,3" but the
malformed `openTime` "2024/05/01 21:30:00"; phase 1 does *not* accept
it (the `strptime` call raises before the phase-1 return and the
record is dropped), no dispatch happens, and the run exits 1. -/
theorem phase1_malformed_time_not_dispatched :
    (get_lottery_result 1 dateRef envBadTime.outcomes1).1 = none
    ∧ (main envBadTime).events.countP isChat = 0
    ∧ (main envBadTime).events.countP isEmail = 0
    ∧ (main envBadTime).exitCode = 1 := by
  decide

/-- C2 amended: phase 1 accepts the first record of a non-empty-list
response unconditionally in its *date* — provided its `openTime` is
present and parses in the `%Y-%m-%d %H:%M:%S` format — and, when the
record also carries the `zodiac`, `wave` and `expect` fields the
formatters index, the run proceeds directly to dispatch of both
notifications with that record.  A record whose `openTime` is missing
or malformed is not accepted; an accepted record missing a formatter
field crashes the run before any notification (see the C5 theorems). -/
theorem phase1_accepts_any_parsed (today : Date) (env : Env) (r : RawRecord)
    (code t : String) (dt : DateTime)
    (h1 : env.outcomes1 1 = ApiOutcome.record r)
    (h2 : r.openCode = some code) (h3 : code ≠ "")
    (h4 : r.openTime = some t) (h5 : strptime t = some dt) :
    (get_lottery_result 1 today env.outcomes1).1 = some r
    ∧ (formatFieldsPresent r = true →
        Event.chat r ∈ (main env).events ∧ Event.email r ∈ (main env).events
          ∧ (main env).exitCode = 0) := by
  have hacc : ∀ d : Date, attemptResult 1 d (env.outcomes1 1) = some r := by
    intro d
    rw [h1]
    exact attempt_phase1_accepts d r code t dt h2 h3 h4 h5
  have hf : ∀ d : Date, (get_lottery_result 1 d env.outcomes1).1 = some r :=
    fun d => fetch_first_attempt 1 d env.outcomes1 r (hacc d)
  refine ⟨hf today, ?_⟩
  intro hfmt
  rw [main_eq_dispatch1 env r (hf env.today) hfmt]
  exact ⟨by simp, by simp, rfl⟩

/-- C2 witness: a fully-fielded record dated 2023-01-01 — not the
reference day 2024-05-01 — is accepted by phase 1 and dispatched on
both channels with exit code 0. -/
theorem phase1_accepts_any_parsed_witness :
    ((get_lottery_result 1 dateRef envEarly.outcomes1).1 = some recEarly
      ∧ (Event.chat recEarly ∈ (main envEarly).events
        ∧ Event.email recEarly ∈ (main envEarly).events
        ∧ (main envEarly).exitCode = 0))
    ∧ DateTime.toDate ⟨2023, 1, 1, 0, 0, 0⟩ ≠ dateRef := by
  have h := phase1_accepts_any_parsed dateRef envEarly recEarly "1,2,3"
    "2023-01-01 00:00:00" ⟨2023, 1, 1, 0, 0, 0⟩ rfl rfl (by decide) rfl (by decide)
  exact ⟨⟨h.1, h.2 rfl⟩, by decide⟩

/-- C3: in phase 2 a candidate record (first element of a non-empty
list, with truthy `openCode`) is accepted iff its `openTime` parses as
a (Shanghai-local) timestamp whose date component equals the reference
"today" date; any malformed `openTime` yields "not today" — the record
is not accepted — and the blanket `except` keeps the parse failure
from escaping `get_lottery_result` (the embedded fetch is total). -/
theorem phase2_accept_iff_today (today : Date) (r : RawRecord) (code : String)
    (h1 : r.openCode = some code) (h2 : code ≠ "") :
    (attemptResult 2 today (ApiOutcome.record r) = some r ↔
      ∃ t dt, r.openTime = some t ∧ strptime t = some dt ∧ dt.toDate = today)
    ∧ (∀ t, r.openTime = some t → strptime t = none →
        attemptResult 2 today (ApiOutcome.record r) = none) := by
  constructor
  · cases hot : r.openTime with
    | none => simp [attemptResult, h1, h2, hot]
    | some t =>
      cases hst : strptime t with
      | none => simp [attemptResult, h1, h2, hot, hst]
      | some dt =>
        by_cases hd : dt.toDate = today
        · simp [attemptResult, h1, h2, hot, hst, hd]
        · simp [attemptResult, h1, h2, hot, hst, hd]
  · intro t ht hst
    simp [attemptResult, h1, h2, ht, hst]

/-- C3 witness: a record dated on the reference day is accepted by the
phase-2 body. -/
theorem phase2_accept_iff_today_witness :
    attemptResult 2 dateRef (ApiOutcome.record recToday) = some recToday :=
  (phase2_accept_iff_today dateRef recToday "1,2,3" rfl (by decide)).1.mpr
    ⟨"2024-05-01 21:30:00", ⟨2024, 5, 1, 21, 30, 0⟩, rfl, by decide, rfl⟩

/-- C4 (evaluating the code at the failing input): a run that starts at
21:10:00 with every phase-1 attempt failing sleeps through 480 seconds
of phase-1 retries, and then — because `wait_seconds` is computed from
the stale start-of-run clock — wakes for phase 2 at 21:39:31, i.e. 480
seconds *after* the 21:31:31 window start, not at the window start as
the spec and the source's own comments (lines 361, 370) state. -/
theorem gap_wait_overshoots_window :
    envWake.startSec < phase2StartSec
    ∧ sleepSum (get_lottery_result 1 envWake.today envWake.outcomes1).2
        = (PHASE1_RETRIES - 1) * PHASE1_INTERVAL
    ∧ (main envWake).wake = some (phase2StartSec + (PHASE1_RETRIES - 1) * PHASE1_INTERVAL)
    ∧ phase2StartSec + (PHASE1_RETRIES - 1) * PHASE1_INTERVAL ≠ phase2StartSec := by
  decide

/-- C6: for every API behaviour in which all attempts fail softly
(exception before validation, wrong shape, or first record with a
missing/empty `openCode`), the fetch returns `none` after its attempt
budget — the embedding is total, so nothing is raised — and it returns
a record only when some attempt's response was a non-empty JSON list
whose first element is that record with a truthy `openCode`. -/
theorem fetch_soft_fail (phase : Nat) (today : Date) (oc : Nat → ApiOutcome) :
    ((∀ i, badOutcome (oc i) = true) → (get_lottery_result phase today oc).1 = none)
    ∧ (∀ r, (get_lottery_result phase today oc).1 = some r →
        ∃ i, 1 ≤ i ∧ i ≤ maxRetriesFor phase ∧ oc i = ApiOutcome.record r
          ∧ ∃ c, r.openCode = some c ∧ c ≠ "") := by
  have hsome : ∀ r, (get_lottery_result phase today oc).1 = some r →
      ∃ i, 1 ≤ i ∧ i ≤ maxRetriesFor phase ∧ oc i = ApiOutcome.record r
        ∧ ∃ c, r.openCode = some c ∧ c ≠ "" := by
    intro r h
    obtain ⟨i, hi1, hi2, hi3⟩ := fetch_some phase today oc r h
    obtain ⟨hoc, c, hc1, hc2⟩ := attemptResult_record phase today (oc i) r hi3
    exact ⟨i, hi1, hi2, hoc, c, hc1, hc2⟩
  refine ⟨?_, hsome⟩
  intro hbad
  cases hres : (get_lottery_result phase today oc).1 with
  | none => rfl
  | some r =>
    obtain ⟨i, -, -, hoc, c, hc1, hc2⟩ := hsome r hres
    have hb := hbad i
    rw [hoc] at hb
    simp [badOutcome, hc1] at hb
    exact (hc2 hb).elim

/-- C6 witness: all-netError attempts make the phase-2 fetch return
`none`; a run that does return a record exposes the successful
attempt. -/
theorem fetch_soft_fail_witness :
    (get_lottery_result 2 dateRef (fun _ => ApiOutcome.netError)).1 = none
    ∧ ∃ i, 1 ≤ i ∧ i ≤ maxRetriesFor 2
        ∧ (fun _ : Nat => ApiOutcome.record recToday) i = ApiOutcome.record recToday
        ∧ ∃ c, recToday.openCode = some c ∧ c ≠ "" :=
  ⟨(fetch_soft_fail 2 dateRef (fun _ => ApiOutcome.netError)).1 (fun _ => rfl),
    (fetch_soft_fail 2 dateRef (fun _ => ApiOutcome.record recToday)).2 recToday (by decide)⟩

/-- C7: when every SMTP attempt raises, `send_email` performs exactly
`EMAIL_MAX_RETRIES` attempts with an `EMAIL_RETRY_DELAY` sleep between
consecutive attempts, then returns `False` (totally — nothing
escapes); the run still exits 0 and the chat dispatch already made is
kept.  The accepted record must carry the formatter fields: otherwise
`send_email` is never reached (see the C5 theorems). -/
theorem email_retry_exhaustion (env : Env) (r : RawRecord)
    (hfail : ∀ i, 1 ≤ i → i ≤ EMAIL_MAX_RETRIES → env.emailFails i = true)
    (hr : (get_lottery_result 1 env.today env.outcomes1).1 = some r)
    (hfmt : formatFieldsPresent r = true) :
    send_email env.emailFails
      = (false, EMAIL_MAX_RETRIES, List.replicate (EMAIL_MAX_RETRIES - 1) EMAIL_RETRY_DELAY)
    ∧ (main env).emailReport
      = some (false, EMAIL_MAX_RETRIES, List.replicate (EMAIL_MAX_RETRIES - 1) EMAIL_RETRY_DELAY)
    ∧ (main env).exitCode = 0
    ∧ Event.chat r ∈ (main env).events := by
  have h1 := hfail 1 (by decide) (by decide)
  have h2 := hfail 2 (by decide) (by decide)
  have h3 := hfail 3 (by decide) (by decide)
  have h4 := hfail 4 (by decide) (by decide)
  have h5 := hfail 5 (by decide) (by decide)
  have hsend : send_email env.emailFails
      = (false, EMAIL_MAX_RETRIES, List.replicate (EMAIL_MAX_RETRIES - 1) EMAIL_RETRY_DELAY) := by
    simp [send_email, send_email_go, h1, h2, h3, h4, h5,
      EMAIL_MAX_RETRIES, EMAIL_RETRY_DELAY]
  refine ⟨hsend, ?_, ?_, ?_⟩
  · rw [main_eq_dispatch1 env r hr hfmt]
    simp only [hsend]
  · rw [main_eq_dispatch1 env r hr hfmt]
  · rw [main_eq_dispatch1 env r hr hfmt]
    simp

/-- C7 witness: the exhaustion behaviour on a run whose phase 1
succeeds immediately while every SMTP attempt fails. -/
theorem email_retry_exhaustion_witness :
    send_email envEmailFail.emailFails
      = (false, EMAIL_MAX_RETRIES, List.replicate (EMAIL_MAX_RETRIES - 1) EMAIL_RETRY_DELAY)
    ∧ (main envEmailFail).emailReport
      = some (false, EMAIL_MAX_RETRIES, List.replicate (EMAIL_MAX_RETRIES - 1) EMAIL_RETRY_DELAY)
    ∧ (main envEmailFail).exitCode = 0
    ∧ Event.chat recToday ∈ (main envEmailFail).events :=
  email_retry_exhaustion envEmailFail recToday (fun _ _ _ => rfl) (by decide) rfl

/-- C8: when the three comma-separated fields split into the same
cardinality `N`, the chat message is built from exactly `N` aligned
number tokens, `N` color labels and `N` zodiac labels, and the email
body from exactly `N` number-and-zodiac cells. -/
theorem formatter_token_counts (r : DrawResult) (N : Nat)
    (hn : (numbers r).length = N) (hw : (waves r).length = N)
    (hz : (zodiacs r).length = N) :
    (aligned_numbers r).length = N
    ∧ (chinese_waves r).length = N
    ∧ (aligned_waves r).length = N
    ∧ (aligned_zodiacs r).length = N
    ∧ (emailCells r).length = N := by
  have hcw : (chinese_waves r).length = N := by
    simp [chinese_waves, hw]
  refine ⟨?_, hcw, ?_, ?_, ?_⟩
  · simp [aligned_numbers, hn]
  · simp [aligned_waves, hcw]
  · simp [aligned_zodiacs, hz]
  · simp [emailCells, List.length_zip, hn, hw, hz, Nat.min_self]

/-- C8 witness: the counts on the spec's end-to-end scenario record. -/
theorem formatter_token_counts_witness :
    (aligned_numbers rec9).length = 3
    ∧ (chinese_waves rec9).length = 3
    ∧ (aligned_waves rec9).length = 3
    ∧ (aligned_zodiacs rec9).length = 3
    ∧ (emailCells rec9).length = 3 :=
  formatter_token_counts rec9 3 (by decide) (by decide) (by decide)

/-- Helper: an infix of a list is an infix of any right extension. -/
lemma isInfix_extend (u v w : List Char) (h : u <:+: v) : u <:+: v ++ w := by
  obtain ⟨s, t, hst⟩ := h
  exact ⟨s, t ++ w, by rw [← hst]; simp⟩

/-- Helper: anything inside the closed body of the chat message is
inside the full message, whatever the notification time. -/
lemma dingtalk_contains (r : DrawResult) (t u : String)
    (h : u.data <:+: (dingtalkBody r).data) :
    u.data <:+: (format_dingtalk_message r t).data := by
  have hsplit : (format_dingtalk_message r t).data
      = (dingtalkBody r).data ++ ("通知時間：" ++ t).data := by
    simp only [format_dingtalk_message, String.data_append]
  rw [hsplit]
  exact isInfix_extend _ _ _ h

/-- C9 counterexample: for the scenario record (and notification time
`t9`) the chat message does *not* contain the single-spaced literal
"红 蓝 绿" (the `ljust` padding puts two spaces after each label), nor
a right-aligned numbers line — the source left-aligns with `ljust`. -/
theorem dingtalk_scenario_counterexample :
    ¬ (("红 蓝 绿".data <:+: (format_dingtalk_message rec9 t9).data)
       ∧ ((rjust_numbers_line rec9).data <:+: (format_dingtalk_message rec9 t9).data)) := by
  decide

/-- C9 amended: for the scenario record the chat message contains the
three left-aligned (right-space-padded) numeric columns "1  2  3  ",
the Chinese color labels in the padded form "红  蓝  绿", and the
literal "期號：123期" — for every notification time. -/
theorem dingtalk_scenario_amended (t : String) :
    ("1  2  3  ".data <:+: (format_dingtalk_message rec9 t).data)
    ∧ ("红  蓝  绿".data <:+: (format_dingtalk_message rec9 t).data)
    ∧ ("期號：123期".data <:+: (format_dingtalk_message rec9 t).data) :=
  ⟨dingtalk_contains rec9 t _ (by decide),
    dingtalk_contains rec9 t _ (by decide),
    dingtalk_contains rec9 t _ (by decide)⟩

/-- C10: the email body holds exactly
`min |openCode| (min |wave| |zodiac|)` number/zodiac cells — the `zip`
silently truncates to the shortest field, totally (no error) — and
every cell is built from the three fields' elements at one common
in-range position, so surplus elements of longer fields yield no
cell. -/
theorem email_cells_truncate (r : DrawResult) :
    (emailCells r).length
      = Nat.min (numbers r).length (Nat.min (waves r).length (zodiacs r).length)
    ∧ ∀ i c, (emailCells r).get? i = some c →
        ∃ n w z, (numbers r).get? i = some n ∧ (waves r).get? i = some w
          ∧ (zodiacs r).get? i = some z ∧ c = emailItem n w z := by
  constructor
  · simp [emailCells, List.length_zip]
  · intro i c hc
    simp only [emailCells, List.get?_map] at hc
    obtain ⟨p, hp, hfc⟩ := Option.map_eq_some'.mp hc
    obtain ⟨hn, hq⟩ := (List.get?_zip_eq_some _ _ _ _).mp hp
    obtain ⟨hw, hz⟩ := (List.get?_zip_eq_some _ _ _ _).mp hq
    exact ⟨p.1, p.2.1, p.2.2, hn, hw, hz, by simpa using hfc.symm⟩

/-- C10 witness: on a record with fields of cardinality 3, 2, 1 the
email body has exactly one cell, built from the first element of each
field. -/
theorem email_cells_truncate_witness :
    ((emailCells recUneven).length
      = Nat.min (numbers recUneven).length
          (Nat.min (waves recUneven).length (zodiacs recUneven).length))
    ∧ ((emailCells recUneven).length = 1)
    ∧ (∃ n w z, (numbers recUneven).get? 0 = some n
        ∧ (waves recUneven).get? 0 = some w
        ∧ (zodiacs recUneven).get? 0 = some z
        ∧ emailItem "1" "red" "Rat" = emailItem n w z) :=
  ⟨(email_cells_truncate recUneven).1, by decide,
    (email_cells_truncate recUneven).2 0 (emailItem "1" "red" "Rat") (by decide)⟩

end LotteryNotifier
